import Mathlib

/-!
Verification development for the `network` module of a Docker HTTP client
library (`src/network.rs`).  The module's option structs, their
query-parameter encoders (`into_array`), and the seven per-operation
request-building entry points are shallowly embedded below; Rust's text
parameter `T: AsRef<str>` is instantiated at Lean `String`, Rust's
`HashMap` is embedded as an association list carrying the map's iteration
order, and `ArrayVec` as `List`.
-/

/-- `TRUE_STR` constant from the crate's `docker` module (not part of this
slice).  Modelled from the spec: boolean fields encode as the literal
strings `"true"` / `"false"`. -/
def TRUE_STR : String := "true"

/-- `FALSE_STR` constant from the crate's `docker` module (not part of this
slice).  Modelled from the spec: boolean fields encode as the literal
strings `"true"` / `"false"`. -/
def FALSE_STR : String := "false"

/-- Left curly brace as a string (JSON object opener). -/
def lbrace : String := String.singleton (Char.ofNat 123)

/-- Right curly brace as a string (JSON object closer). -/
def rbrace : String := String.singleton (Char.ofNat 125)

/-- One hexadecimal digit, lower case, as `serde_json` prints them. -/
def hexDigit (n : Nat) : Char :=
  if n < 10 then Char.ofNat (48 + n) else Char.ofNat (87 + n)

/-- `serde_json`'s escaping of a single character inside a JSON string:
`"` and `\` get a backslash, the named control characters use their short
escapes, remaining control characters use `\u00XX`, and everything else is
emitted verbatim. -/
def escapeChar (c : Char) : String :=
  if c = Char.ofNat 34 then "\\\""
  else if c = Char.ofNat 92 then "\\\\"
  else if c = Char.ofNat 8 then "\\b"
  else if c = Char.ofNat 9 then "\\t"
  else if c = Char.ofNat 10 then "\\n"
  else if c = Char.ofNat 12 then "\\f"
  else if c = Char.ofNat 13 then "\\r"
  else if c.toNat < 32 then
    "\\u00" ++ String.singleton (hexDigit (c.toNat / 16)) ++ String.singleton (hexDigit (c.toNat % 16))
  else String.singleton c

/-- Escape the body of a JSON string as `serde_json` does. -/
def escapeString (s : String) : String :=
  String.join (s.data.map escapeChar)

/-- A JSON string literal: escaped body between double quotes. -/
def jsonQuote (s : String) : String :=
  "\"" ++ escapeString s ++ "\""

/-- JSON rendering of a `Vec<&str>`: a bracketed comma-separated array of
string literals, as `serde_json::to_string` produces. -/
def jsonStrList (vs : List String) : String :=
  "[" ++ String.intercalate "," (vs.map jsonQuote) ++ "]"

/-- JSON rendering of a `HashMap<&str, Vec<&str>>` in iteration order, as
`serde_json::to_string` produces for the `filters` field: a JSON object
mapping each key to the array of its values. -/
def jsonStringOfFilters (m : List (String × List String)) : String :=
  lbrace
    ++ String.intercalate "," (m.map fun kv => jsonQuote kv.1 ++ ":" ++ jsonStrList kv.2)
    ++ rbrace

/-- `serde_json::to_string` applied to a `HashMap<&str, Vec<&str>>`.  Its
Rust signature is fallible (`Result<String, serde_json::Error>`); on a map
from strings to lists of strings serialization always succeeds, which the
embedding records by always returning `ok`. -/
def serdeToStringFilters (m : List (String × List String)) : Except String String :=
  Except.ok (jsonStringOfFilters m)

/-- The error type of `crate::errors` (not part of this slice).  Modelled
from the spec: three distinct error kinds are surfaced — serialization
failure before any network activity, transport failure (connection error or
non-success HTTP status from the daemon), and deserialization failure of a
response body. -/
inductive Error where
  | jsonSerializeError (msg : String)
  | jsonDeserializeError (msg : String)
  | dockerResponseServerError (status : Nat) (msg : String)
  | transportError (msg : String)
deriving DecidableEq, Repr

/-- Transport-kind errors: the daemon rejected the request or the
connection failed. -/
def Error.isTransportKind : Error → Bool
  | .dockerResponseServerError _ _ => true
  | .transportError _ => true
  | _ => false

/-- Deserialization-kind errors: the response body could not be parsed. -/
def Error.isDeserializeKind : Error → Bool
  | .jsonDeserializeError _ => true
  | _ => false

/-- Serialization-kind errors: an option struct could not be encoded. -/
def Error.isSerializeKind : Error → Bool
  | .jsonSerializeError _ => true
  | _ => false

/-- JSON value trees, the intermediate form of the crate's (external)
JSON encode/decode primitives. -/
inductive Json where
  | null
  | bool (b : Bool)
  | num (n : Int)
  | str (s : String)
  | arr (elems : List Json)
  | obj (fields : List (String × Json))

/-- serde's serialization of `Option<&str>`: `None` is `null`. -/
def Json.ofOptStr : Option String → Json
  | none => Json.null
  | some s => Json.str s

/-- serde's serialization of `HashMap<&str, &str>` in iteration order. -/
def Json.ofStrMap (m : List (String × String)) : Json :=
  Json.obj (m.map fun kv => (kv.1, Json.str kv.2))

/-- serde's serialization of `Option<HashMap<&str, &str>>`. -/
def Json.ofOptStrMap : Option (List (String × String)) → Json
  | none => Json.null
  | some m => Json.ofStrMap m

/-- serde's serialization of `Vec<&str>`. -/
def Json.ofStrList (vs : List String) : Json :=
  Json.arr (vs.map Json.str)

/-- serde's serialization of `Option<Vec<&str>>`. -/
def Json.ofOptStrList : Option (List String) → Json
  | none => Json.null
  | some vs => Json.ofStrList vs

/-- The keys of a JSON object, in emission order (`[]` on non-objects). -/
def Json.objKeys : Json → List String
  | Json.obj fields => fields.map Prod.fst
  | _ => []

/-- `InspectNetworkOptions<T>`: parameters of the Inspect Network API. -/
structure InspectNetworkOptions (T : Type) where
  verbose : Bool
  scope : T
deriving DecidableEq, Repr

/-- `InspectNetworkQueryParams for InspectNetworkOptions<&'a str>`
(network.rs lines 132–139): always two pairs, `verbose` rendered via the
`TRUE_STR`/`FALSE_STR` constants, then `scope` verbatim. -/
def InspectNetworkOptions.into_array (self : InspectNetworkOptions String) :
    Except Error (List (String × String)) :=
  Except.ok [("verbose", if self.verbose then TRUE_STR else FALSE_STR),
             ("scope", self.scope)]

/-- Rust's `ToString` for `bool` (used by the owned-`String` impl). -/
def boolToString (b : Bool) : String :=
  if b then "true" else "false"

/-- `InspectNetworkQueryParams for InspectNetworkOptions<String>`
(network.rs lines 141–148): always two pairs, `verbose` rendered via
`bool::to_string`, then `scope` moved out verbatim. -/
def InspectNetworkOptions.into_array_owned (self : InspectNetworkOptions String) :
    Except Error (List (String × String)) :=
  Except.ok [("verbose", boolToString self.verbose), ("scope", self.scope)]

/-- `ListNetworksOptions<T>`: a single `filters` field, a map from filter
key to list of filter values, embedded in iteration order. -/
structure ListNetworksOptions (T : Type) where
  filters : List (T × List T)
deriving DecidableEq, Repr

/-- `ListNetworksQueryParams::into_array` (network.rs lines 265–273): one
`filters` pair whose value is the JSON serialization of the whole map;
a serialization failure is mapped to `JsonSerializeError` and propagated
by `?` with no partial list. -/
def ListNetworksOptions.into_array (self : ListNetworksOptions String) :
    Except Error (List (String × String)) :=
  match serdeToStringFilters self.filters with
  | Except.ok s => Except.ok [("filters", s)]
  | Except.error e => Except.error (Error.jsonSerializeError e)

/-- `PruneNetworksOptions<T>`: a single `filters` field, a map from filter
key to list of filter values, embedded in iteration order. -/
structure PruneNetworksOptions (T : Type) where
  filters : List (T × List T)
deriving DecidableEq, Repr

/-- `PruneNetworksQueryParams::into_array` (network.rs lines 409–417): one
`filters` pair whose value is the JSON serialization of the whole map;
a serialization failure is mapped to `JsonSerializeError` and propagated
by `?` with no partial list. -/
def PruneNetworksOptions.into_array (self : PruneNetworksOptions String) :
    Except Error (List (String × String)) :=
  match serdeToStringFilters self.filters with
  | Except.ok s => Except.ok [("filters", s)]
  | Except.error e => Except.error (Error.jsonSerializeError e)

/-- C1: both inspect-network encoders emit exactly
`[("verbose", bool-as-string), ("scope", scope)]` in that order, and the
borrowed-slice and owned instantiations agree. -/
theorem inspect_into_array_spec (b : Bool) (s : String) :
    InspectNetworkOptions.into_array ⟨b, s⟩ =
      Except.ok [("verbose", if b then "true" else "false"), ("scope", s)] ∧
    InspectNetworkOptions.into_array_owned ⟨b, s⟩ =
      Except.ok [("verbose", if b then "true" else "false"), ("scope", s)] ∧
    InspectNetworkOptions.into_array ⟨b, s⟩ =
      InspectNetworkOptions.into_array_owned ⟨b, s⟩ := by
  refine ⟨rfl, ?_, ?_⟩ <;>
    simp [InspectNetworkOptions.into_array, InspectNetworkOptions.into_array_owned,
      boolToString, TRUE_STR, FALSE_STR]

/-- C10: the default inspect options (`verbose = false`, `scope = ""`)
encode to exactly `[("verbose", "false"), ("scope", "")]`, with the unset
scope transmitted as an empty-string value, and the inspect encoder is
total: it returns `ok` on every input. -/
theorem inspect_into_array_default :
    InspectNetworkOptions.into_array ⟨false, ""⟩ =
      Except.ok [("verbose", "false"), ("scope", "")] ∧
    ∀ o : InspectNetworkOptions String, ∃ ps, InspectNetworkOptions.into_array o = Except.ok ps := by
  refine ⟨rfl, fun o => ?_⟩
  exact ⟨_, rfl⟩

/-- C2: for every filters map, the list-networks and prune-networks
encoders return either `ok` of exactly one pair, `filters` mapped to the
JSON serialization of the whole map, or a serialization-kind error with no
partial list; on the spec's concrete example the single pair is
`("filters", "\x7b\"label\":[\"maintainer=x\"]\x7d")`. -/
theorem filters_into_array_spec (m : List (String × List String)) :
    (ListNetworksOptions.into_array ⟨m⟩ = Except.ok [("filters", jsonStringOfFilters m)] ∨
      ∃ e, ListNetworksOptions.into_array ⟨m⟩ = Except.error e ∧ e.isSerializeKind = true) ∧
    (PruneNetworksOptions.into_array ⟨m⟩ = Except.ok [("filters", jsonStringOfFilters m)] ∨
      ∃ e, PruneNetworksOptions.into_array ⟨m⟩ = Except.error e ∧ e.isSerializeKind = true) ∧
    ListNetworksOptions.into_array ⟨[("label", ["maintainer=x"])]⟩ =
      Except.ok [("filters", lbrace ++ "\"label\":[\"maintainer=x\"]" ++ rbrace)] := by
  refine ⟨Or.inl rfl, Or.inl rfl, ?_⟩
  rfl

/-- C9: the list-networks and prune-networks encoders are extensionally
equal: on every filters map they return the same result. -/
theorem list_prune_into_array_agree (m : List (String × List String)) :
    ListNetworksOptions.into_array ⟨m⟩ = PruneNetworksOptions.into_array ⟨m⟩ := rfl

/-- `IPAMConfig<T>` (network.rs lines 70–82). -/
structure IPAMConfig (T : Type) where
  subnet : Option T
  ip_range : Option T
  gateway : Option T
  aux_address : Option (List (T × T))
deriving DecidableEq, Repr

/-- `IPAM<T>` (network.rs lines 54–67). -/
structure IPAM (T : Type) where
  driver : T
  config : List (IPAMConfig T)
  options : Option (List (T × T))
deriving DecidableEq, Repr

/-- `CreateNetworkOptions<T>` (network.rs lines 19–51): network
configuration for the Create Network API, fields in declaration order. -/
structure CreateNetworkOptions (T : Type) where
  name : T
  check_duplicate : Bool
  driver : T
  internal : Bool
  attachable : Bool
  ingress : Bool
  ipam : IPAM T
  enable_ipv6 : Bool
  options : List (T × T)
  labels : List (T × T)
deriving DecidableEq, Repr

/-- `EndpointIPAMConfig<T>` (network.rs lines 332–344). -/
structure EndpointIPAMConfig (T : Type) where
  ipv4_address : Option T
  ipv6_address : Option T
  link_local_ips : Option (List T)
deriving DecidableEq, Repr

/-- `EndpointSettings<T>` (network.rs lines 289–330): configuration of a
network endpoint, fields in declaration order; `ip_prefix_len: isize` and
`global_ipv6_prefix_len: i64` are embedded as `Int`. -/
structure EndpointSettings (T : Type) where
  ipam_config : EndpointIPAMConfig T
  links : List T
  aliases : List T
  network_id : T
  endpoint_id : T
  gateway : T
  ip_address : T
  ip_prefix_len : Int
  ipv6_gateway : T
  global_ipv6_address : T
  global_ipv6_prefix_len : Int
  mac_address : T
  driver_opts : Option (List (T × T))
deriving DecidableEq, Repr

/-- `ConnectNetworkOptions<T>` (network.rs lines 276–286). -/
structure ConnectNetworkOptions (T : Type) where
  container : T
  endpoint_config : EndpointSettings T
deriving DecidableEq, Repr

/-- `DisconnectNetworkOptions<T>` (network.rs lines 347–357). -/
structure DisconnectNetworkOptions (T : Type) where
  container : T
  force : Bool
deriving DecidableEq, Repr

/-- serde serialization of `IPAMConfig` under `rename_all = "PascalCase"`
with the `IPRange` override: declaration order, `Option` fields as
`null` when absent. -/
def IPAMConfig.toJson (c : IPAMConfig String) : Json :=
  Json.obj [("Subnet", Json.ofOptStr c.subnet),
            ("IPRange", Json.ofOptStr c.ip_range),
            ("Gateway", Json.ofOptStr c.gateway),
            ("AuxAddress", Json.ofOptStrMap c.aux_address)]

/-- serde serialization of `IPAM` under `rename_all = "PascalCase"`. -/
def IPAM.toJson (i : IPAM String) : Json :=
  Json.obj [("Driver", Json.str i.driver),
            ("Config", Json.arr (i.config.map IPAMConfig.toJson)),
            ("Options", Json.ofOptStrMap i.options)]

/-- serde serialization of `CreateNetworkOptions` under
`rename_all = "PascalCase"` with the `IPAM` and `EnableIPv6` overrides,
fields in declaration order. -/
def CreateNetworkOptions.toJson (o : CreateNetworkOptions String) : Json :=
  Json.obj [("Name", Json.str o.name),
            ("CheckDuplicate", Json.bool o.check_duplicate),
            ("Driver", Json.str o.driver),
            ("Internal", Json.bool o.internal),
            ("Attachable", Json.bool o.attachable),
            ("Ingress", Json.bool o.ingress),
            ("IPAM", o.ipam.toJson),
            ("EnableIPv6", Json.bool o.enable_ipv6),
            ("Options", Json.ofStrMap o.options),
            ("Labels", Json.ofStrMap o.labels)]

/-- serde serialization of `EndpointIPAMConfig` with per-field renames
`IPv4Address`, `IPv6Address`, `LinkLocalIPs`. -/
def EndpointIPAMConfig.toJson (c : EndpointIPAMConfig String) : Json :=
  Json.obj [("IPv4Address", Json.ofOptStr c.ipv4_address),
            ("IPv6Address", Json.ofOptStr c.ipv6_address),
            ("LinkLocalIPs", Json.ofOptStrList c.link_local_ips)]

/-- serde serialization of `EndpointSettings` under
`rename_all = "PascalCase"` with the `IPAMConfig`, `NetworkID`,
`EndpointID`, `IPAddress`, `IPPrefixLen`, `IPv6Gateway`,
`GlobalIPv6Address` and `GlobalIPv6PrefixLen` overrides. -/
def EndpointSettings.toJson (e : EndpointSettings String) : Json :=
  Json.obj [("IPAMConfig", e.ipam_config.toJson),
            ("Links", Json.ofStrList e.links),
            ("Aliases", Json.ofStrList e.aliases),
            ("NetworkID", Json.str e.network_id),
            ("EndpointID", Json.str e.endpoint_id),
            ("Gateway", Json.str e.gateway),
            ("IPAddress", Json.str e.ip_address),
            ("IPPrefixLen", Json.num e.ip_prefix_len),
            ("IPv6Gateway", Json.str e.ipv6_gateway),
            ("GlobalIPv6Address", Json.str e.global_ipv6_address),
            ("GlobalIPv6PrefixLen", Json.num e.global_ipv6_prefix_len),
            ("MacAddress", Json.str e.mac_address),
            ("DriverOpts", Json.ofOptStrMap e.driver_opts)]

/-- serde serialization of `ConnectNetworkOptions` under
`rename_all = "PascalCase"`. -/
def ConnectNetworkOptions.toJson (o : ConnectNetworkOptions String) : Json :=
  Json.obj [("Container", Json.str o.container),
            ("EndpointConfig", o.endpoint_config.toJson)]

/-- serde serialization of `DisconnectNetworkOptions` under
`rename_all = "PascalCase"`. -/
def DisconnectNetworkOptions.toJson (o : DisconnectNetworkOptions String) : Json :=
  Json.obj [("Container", Json.str o.container),
            ("Force", Json.bool o.force)]

/-- HTTP methods used by this module. -/
inductive Method where
  | GET
  | POST
  | DELETE
deriving DecidableEq, Repr

/-- A request body: `Body::empty()` for parameterless calls, or the JSON
tree of a serialized option struct (its wire string is the external JSON
primitive's rendering of that tree). -/
inductive RBody where
  | empty
  | json (j : Json)

/-- A transport-ready request descriptor: fixed method, path with any
resource identifier already interpolated, encoded query parameters, and
body.  Modelled from the spec: the request assembler produces exactly this
method + path + query-parameters + body tuple and performs no I/O. -/
structure RequestDescriptor where
  method : Method
  path : String
  queryParams : List (String × String)
  body : RBody

/-- `Docker::transpose_option` from the crate's `docker` module (not part
of this slice).  Modelled from the spec: absence of an options struct must
have no observable effect, so `None` becomes a successful absence while a
present encoding result has its error propagated. -/
def transpose_option (o : Option (Except Error α)) : Except Error (Option α) :=
  match o with
  | none => Except.ok none
  | some (Except.ok x) => Except.ok (some x)
  | some (Except.error e) => Except.error e

/-- `Docker::serialize_payload(Some(config))` from the crate's `docker`
module (not part of this slice).  Modelled from the spec: bodies for
mutating calls are produced by serializing the full option struct as
JSON. -/
def serialize_payload (j : Json) : Except Error RBody :=
  Except.ok (RBody.json j)

/-- `Docker::build_request` from the crate's `docker` module (not part of
this slice).  Modelled from the spec: assembles method, path, the encoded
query parameters (absent options contribute zero parameters) and body into
one request descriptor, propagating any encoding error with no partial
request. -/
def build_request (path : String) (method : Method)
    (params : Except Error (Option (List (String × String))))
    (body : Except Error RBody) : Except Error RequestDescriptor :=
  match params, body with
  | Except.ok ps, Except.ok b => Except.ok ⟨method, path, ps.getD [], b⟩
  | Except.error e, _ => Except.error e
  | Except.ok _, Except.error e => Except.error e

/-- `Docker::create_network` (network.rs lines 460–477), request-building
part: POST `/networks/create`, no query parameters, full options as JSON
body. -/
def create_network (config : CreateNetworkOptions String) : Except Error RequestDescriptor :=
  build_request "/networks/create" Method.POST (Except.ok none)
    (serialize_payload config.toJson)

/-- `Docker::remove_network` (network.rs lines 499–510), request-building
part: DELETE `/networks/{name}` with the name interpolated verbatim, no
query parameters, empty body. -/
def remove_network (network_name : String) : Except Error RequestDescriptor :=
  build_request ("/networks/" ++ network_name) Method.DELETE (Except.ok none)
    (Except.ok RBody.empty)

/-- `Docker::inspect_network` (network.rs lines 542–561), request-building
part: GET `/networks/{name}`, optional inspect options encoded as query
parameters, empty body. -/
def inspect_network (network_name : String)
    (options : Option (InspectNetworkOptions String)) : Except Error RequestDescriptor :=
  build_request ("/networks/" ++ network_name) Method.GET
    (transpose_option (options.map InspectNetworkOptions.into_array))
    (Except.ok RBody.empty)

/-- `Docker::list_networks` (network.rs lines 595–614), request-building
part: GET `/networks`, optional filters encoded as query parameters, empty
body. -/
def list_networks (options : Option (ListNetworksOptions String)) :
    Except Error RequestDescriptor :=
  build_request "/networks" Method.GET
    (transpose_option (options.map ListNetworksOptions.into_array))
    (Except.ok RBody.empty)

/-- `Docker::connect_network` (network.rs lines 652–670), request-building
part: POST `/networks/{name}/connect`, no query parameters, full options
as JSON body. -/
def connect_network (network_name : String) (config : ConnectNetworkOptions String) :
    Except Error RequestDescriptor :=
  build_request ("/networks/" ++ network_name ++ "/connect") Method.POST
    (Except.ok none) (serialize_payload config.toJson)

/-- `Docker::disconnect_network` (network.rs lines 701–719),
request-building part: POST `/networks/{name}/disconnect`, no query
parameters, full options as JSON body. -/
def disconnect_network (network_name : String) (config : DisconnectNetworkOptions String) :
    Except Error RequestDescriptor :=
  build_request ("/networks/" ++ network_name ++ "/disconnect") Method.POST
    (Except.ok none) (serialize_payload config.toJson)

/-- `Docker::prune_networks` (network.rs lines 754–773), request-building
part: POST `/networks/prune`, optional filters encoded as query
parameters, empty body. -/
def prune_networks (options : Option (PruneNetworksOptions String)) :
    Except Error RequestDescriptor :=
  build_request "/networks/prune" Method.POST
    (transpose_option (options.map PruneNetworksOptions.into_array))
    (Except.ok RBody.empty)

/-- The method and path of a successfully built request. -/
def reqMethodPath : Except Error RequestDescriptor → Option (Method × String)
  | Except.ok r => some (r.method, r.path)
  | Except.error _ => none

/-- The query parameters of a successfully built request. -/
def reqParams : Except Error RequestDescriptor → Option (List (String × String))
  | Except.ok r => some r.queryParams
  | Except.error _ => none

/-- The body of a successfully built request. -/
def reqBody : Except Error RequestDescriptor → Option RBody
  | Except.ok r => some r.body
  | Except.error _ => none

/-- C3: list/prune with no options carry zero query parameters, while
options with an empty filters map carry exactly one parameter
`("filters", "\x7b\x7d")` whose value is the empty JSON object; the two
cases are distinct at the encoding layer. -/
theorem options_absence_vs_empty_filters :
    reqParams (list_networks none) = some [] ∧
    reqParams (list_networks (some ⟨[]⟩)) = some [("filters", lbrace ++ rbrace)] ∧
    reqParams (prune_networks none) = some [] ∧
    reqParams (prune_networks (some ⟨[]⟩)) = some [("filters", lbrace ++ rbrace)] ∧
    reqParams (list_networks none) ≠ reqParams (list_networks (some ⟨[]⟩)) ∧
    reqParams (prune_networks none) ≠ reqParams (prune_networks (some ⟨[]⟩)) := by
  refine ⟨rfl, rfl, rfl, rfl, ?_, ?_⟩ <;> decide

/-- C4: each of the seven entry points uses exactly the fixed HTTP method
and path of the spec's table, with the caller-supplied network name
concatenated into the path verbatim and unescaped. -/
theorem entry_points_method_path (network_name : String)
    (cfgC : CreateNetworkOptions String)
    (optsI : Option (InspectNetworkOptions String))
    (optsL : Option (ListNetworksOptions String))
    (cfgN : ConnectNetworkOptions String)
    (cfgD : DisconnectNetworkOptions String)
    (optsP : Option (PruneNetworksOptions String)) :
    reqMethodPath (create_network cfgC) = some (Method.POST, "/networks/create") ∧
    reqMethodPath (remove_network network_name) =
      some (Method.DELETE, "/networks/" ++ network_name) ∧
    reqMethodPath (inspect_network network_name optsI) =
      some (Method.GET, "/networks/" ++ network_name) ∧
    reqMethodPath (list_networks optsL) = some (Method.GET, "/networks") ∧
    reqMethodPath (connect_network network_name cfgN) =
      some (Method.POST, "/networks/" ++ network_name ++ "/connect") ∧
    reqMethodPath (disconnect_network network_name cfgD) =
      some (Method.POST, "/networks/" ++ network_name ++ "/disconnect") ∧
    reqMethodPath (prune_networks optsP) = some (Method.POST, "/networks/prune") := by
  refine ⟨rfl, rfl, ?_, ?_, rfl, rfl, ?_⟩
  · cases optsI <;> rfl
  · cases optsL <;> rfl
  · cases optsP <;> rfl

/-- C5: create/connect/disconnect send exactly the JSON serialization of
the full option struct, with PascalCase field names and the fixed casing
overrides (`IPAM`, `EnableIPv6`, `EndpointID`, `IPv4Address`, ...),
while remove/inspect/list/prune send an empty body. -/
theorem request_bodies_spec (network_name : String)
    (cfgC : CreateNetworkOptions String)
    (cfgN : ConnectNetworkOptions String)
    (cfgD : DisconnectNetworkOptions String)
    (optsI : Option (InspectNetworkOptions String))
    (optsL : Option (ListNetworksOptions String))
    (optsP : Option (PruneNetworksOptions String)) :
    reqBody (create_network cfgC) = some (RBody.json cfgC.toJson) ∧
    cfgC.toJson.objKeys = ["Name", "CheckDuplicate", "Driver", "Internal",
      "Attachable", "Ingress", "IPAM", "EnableIPv6", "Options", "Labels"] ∧
    (cfgC.ipam.toJson).objKeys = ["Driver", "Config", "Options"] ∧
    reqBody (connect_network network_name cfgN) = some (RBody.json cfgN.toJson) ∧
    cfgN.toJson.objKeys = ["Container", "EndpointConfig"] ∧
    (cfgN.endpoint_config.toJson).objKeys = ["IPAMConfig", "Links", "Aliases",
      "NetworkID", "EndpointID", "Gateway", "IPAddress", "IPPrefixLen",
      "IPv6Gateway", "GlobalIPv6Address", "GlobalIPv6PrefixLen",
      "MacAddress", "DriverOpts"] ∧
    (cfgN.endpoint_config.ipam_config.toJson).objKeys =
      ["IPv4Address", "IPv6Address", "LinkLocalIPs"] ∧
    reqBody (disconnect_network network_name cfgD) = some (RBody.json cfgD.toJson) ∧
    cfgD.toJson.objKeys = ["Container", "Force"] ∧
    reqBody (remove_network network_name) = some RBody.empty ∧
    reqBody (inspect_network network_name optsI) = some RBody.empty ∧
    reqBody (list_networks optsL) = some RBody.empty ∧
    reqBody (prune_networks optsP) = some RBody.empty := by
  refine ⟨rfl, rfl, rfl, rfl, rfl, rfl, rfl, rfl, rfl, rfl, ?_, ?_, ?_⟩
  · cases optsI <;> rfl
  · cases optsL <;> rfl
  · cases optsP <;> rfl

/-- C8 counterexample: the encoder output is not invariant under
map-equality of the filters field.  The two-key maps
`[("a", ["1"]), ("b", ["2"])]` and `[("b", ["2"]), ("a", ["1"])]` are
equal as unordered maps (one is a permutation of the other, as two equal
`HashMap`s may present their entries in either iteration order), yet
`into_array` produces different JSON strings for them. -/
theorem into_array_not_map_equality_invariant :
    ([("a", ["1"]), ("b", ["2"])] : List (String × List String)).Perm
      [("b", ["2"]), ("a", ["1"])] ∧
    ListNetworksOptions.into_array ⟨[("a", ["1"]), ("b", ["2"])]⟩ ≠
      ListNetworksOptions.into_array ⟨[("b", ["2"]), ("a", ["1"])]⟩ := by
  refine ⟨List.Perm.swap _ _ _, ?_⟩
  intro h
  simp [ListNetworksOptions.into_array, serdeToStringFilters] at h
  exact absurd h (by decide)

/-- C8 amended: query-parameter encoding is deterministic as a function of
the option struct's representation (for the filters map, its iteration
order), with pairs appended in struct-declaration order, never
alphabetized: inspect always yields `verbose` then `scope`, and
list/prune always yield the single `filters` pair whose value is the JSON
of the map in iteration order. -/
theorem into_array_deterministic_in_declaration_order (b : Bool) (s : String)
    (m : List (String × List String)) :
    InspectNetworkOptions.into_array ⟨b, s⟩ =
      Except.ok [("verbose", if b then TRUE_STR else FALSE_STR), ("scope", s)] ∧
    InspectNetworkOptions.into_array_owned ⟨b, s⟩ =
      Except.ok [("verbose", boolToString b), ("scope", s)] ∧
    ListNetworksOptions.into_array ⟨m⟩ =
      Except.ok [("filters", jsonStringOfFilters m)] ∧
    PruneNetworksOptions.into_array ⟨m⟩ =
      Except.ok [("filters", jsonStringOfFilters m)] := ⟨rfl, rfl, rfl, rfl⟩

/-- Field lookup in a JSON object, as serde's derived deserializer matches
struct fields by name. -/
def Json.lookupField (j : Json) (k : String) : Option Json :=
  match j with
  | Json.obj fields => fields.lookup k
  | _ => none

/-- Sequential fallible decoding of a list, as serde decodes sequences:
the first element error aborts the whole decode. -/
def mapExcept (f : α → Except ε β) : List α → Except ε (List β)
  | [] => Except.ok []
  | x :: xs => do
    let y ← f x
    let ys ← mapExcept f xs
    Except.ok (y :: ys)

/-- Decode a JSON value as a Rust `String`. -/
def Json.asStr : Json → Except String String
  | Json.str s => Except.ok s
  | _ => Except.error "invalid type: expected a string"

/-- Decode a JSON value as a Rust `bool`. -/
def Json.asBool : Json → Except String Bool
  | Json.bool b => Except.ok b
  | _ => Except.error "invalid type: expected a boolean"

/-- Decode one JSON object entry as a map entry with string value. -/
def Json.asStrPair : String × Json → Except String (String × String)
  | (k, Json.str s) => Except.ok (k, s)
  | (k, _) => Except.error ("invalid type in map at key " ++ k)

/-- Decode a JSON value as a `HashMap<String, String>`. -/
def Json.asStrMap : Json → Except String (List (String × String))
  | Json.obj fields => mapExcept Json.asStrPair fields
  | _ => Except.error "invalid type: expected a map"

/-- Decode a JSON value as an `Option<String>` (`null` is `None`). -/
def Json.asOptStr : Json → Except String (Option String)
  | Json.null => Except.ok none
  | Json.str s => Except.ok (some s)
  | _ => Except.error "invalid type: expected a string or null"

/-- Decode a JSON value as an `Option<HashMap<String, String>>`. -/
def Json.asOptStrMap : Json → Except String (Option (List (String × String)))
  | Json.null => Except.ok none
  | Json.obj fields => (mapExcept Json.asStrPair fields).map some
  | _ => Except.error "invalid type: expected a map or null"

/-- Required string field: missing or ill-typed fields are decode
errors, as in serde's derived deserializer. -/
def getStr (j : Json) (k : String) : Except String String :=
  match j.lookupField k with
  | some v => v.asStr
  | none => Except.error ("missing field " ++ k)

/-- Required boolean field. -/
def getBool (j : Json) (k : String) : Except String Bool :=
  match j.lookupField k with
  | some v => v.asBool
  | none => Except.error ("missing field " ++ k)

/-- Required map field. -/
def getStrMap (j : Json) (k : String) : Except String (List (String × String)) :=
  match j.lookupField k with
  | some v => v.asStrMap
  | none => Except.error ("missing field " ++ k)

/-- Optional string field: serde decodes a missing or `null` `Option`
field as `None`. -/
def getOptStr (j : Json) (k : String) : Except String (Option String) :=
  match j.lookupField k with
  | some v => v.asOptStr
  | none => Except.ok none

/-- Optional map field. -/
def getOptStrMap (j : Json) (k : String) : Except String (Option (List (String × String))) :=
  match j.lookupField k with
  | some v => v.asOptStrMap
  | none => Except.ok none

/-- serde's derived deserializer for `IPAMConfig` (all fields optional). -/
def IPAMConfig.fromJson (j : Json) : Except String (IPAMConfig String) := do
  let subnet ← getOptStr j "Subnet"
  let ip_range ← getOptStr j "IPRange"
  let gateway ← getOptStr j "Gateway"
  let aux_address ← getOptStrMap j "AuxAddress"
  Except.ok ⟨subnet, ip_range, gateway, aux_address⟩

/-- serde's derived deserializer for `IPAM`. -/
def IPAM.fromJson (j : Json) : Except String (IPAM String) := do
  let driver ← getStr j "Driver"
  let config ←
    match j.lookupField "Config" with
    | some (Json.arr elems) => mapExcept IPAMConfig.fromJson elems
    | some _ => Except.error "invalid type: expected an array"
    | none => Except.error "missing field Config"
  let options ← getOptStrMap j "Options"
  Except.ok ⟨driver, config, options⟩

/-- serde's derived deserializer for `CreateNetworkOptions`. -/
def CreateNetworkOptions.fromJson (j : Json) :
    Except String (CreateNetworkOptions String) := do
  let name ← getStr j "Name"
  let check_duplicate ← getBool j "CheckDuplicate"
  let driver ← getStr j "Driver"
  let internal ← getBool j "Internal"
  let attachable ← getBool j "Attachable"
  let ingress ← getBool j "Ingress"
  let ipam ←
    match j.lookupField "IPAM" with
    | some v => IPAM.fromJson v
    | none => Except.error "missing field IPAM"
  let enable_ipv6 ← getBool j "EnableIPv6"
  let options ← getStrMap j "Options"
  let labels ← getStrMap j "Labels"
  Except.ok ⟨name, check_duplicate, driver, internal, attachable, ingress,
             ipam, enable_ipv6, options, labels⟩

@[simp]
theorem ok_bind (a : α) (f : α → Except ε β) :
    (Except.ok a : Except ε α) >>= f = f a := rfl

@[simp]
theorem mapExcept_asStrPair_ofStrMap (m : List (String × String)) :
    mapExcept Json.asStrPair (m.map fun kv => (kv.1, Json.str kv.2)) =
      Except.ok m := by
  induction m with
  | nil => rfl
  | cons kv m ih => simp [mapExcept, Json.asStrPair, ih]

@[simp]
theorem asStrMap_ofStrMap (m : List (String × String)) :
    (Json.ofStrMap m).asStrMap = Except.ok m := by
  simp [Json.ofStrMap, Json.asStrMap]

@[simp]
theorem asOptStr_ofOptStr (o : Option String) :
    (Json.ofOptStr o).asOptStr = Except.ok o := by
  cases o <;> rfl

@[simp]
theorem asOptStrMap_ofOptStrMap (o : Option (List (String × String))) :
    (Json.ofOptStrMap o).asOptStrMap = Except.ok o := by
  cases o with
  | none => rfl
  | some m => simp [Json.ofOptStrMap, Json.asOptStrMap, Json.ofStrMap, Except.map]

theorem ipamConfig_fromJson_toJson (c : IPAMConfig String) :
    IPAMConfig.fromJson c.toJson = Except.ok c := by
  simp [IPAMConfig.fromJson, IPAMConfig.toJson, getOptStr, getOptStrMap,
    Json.lookupField, List.lookup]

@[simp]
theorem mapExcept_fromJson_toJson_config (l : List (IPAMConfig String)) :
    mapExcept IPAMConfig.fromJson (l.map IPAMConfig.toJson) = Except.ok l := by
  induction l with
  | nil => rfl
  | cons c l ih => simp [mapExcept, ipamConfig_fromJson_toJson, ih]

theorem ipam_fromJson_toJson (i : IPAM String) :
    IPAM.fromJson i.toJson = Except.ok i := by
  simp [IPAM.fromJson, IPAM.toJson, getStr, getOptStrMap,
    Json.lookupField, List.lookup, Json.asStr]

/-- C6: serializing any `CreateNetworkOptions` value (with its nested
IPAM, IPAM configs, options map and labels map) to its JSON body and
decoding that JSON back yields a structurally equal record. -/
theorem create_network_options_round_trip (o : CreateNetworkOptions String) :
    CreateNetworkOptions.fromJson o.toJson = Except.ok o := by
  simp [CreateNetworkOptions.fromJson, CreateNetworkOptions.toJson,
    getStr, getBool, getStrMap, Json.lookupField, List.lookup,
    Json.asStr, Json.asBool, ipam_fromJson_toJson]

/-- Modelled from the spec: the transport collaborator's raw outcome —
either a connection-level failure or a full HTTP response carrying a
status code and a body (the collaborator itself is out of scope). -/
inductive TransportResponse where
  | failure (msg : String)
  | response (status : Nat) (body : String)

/-- Success (2xx) HTTP statuses. -/
def statusSuccess (st : Nat) : Bool :=
  decide (200 ≤ st) && decide (st < 300)

/-- Modelled from the spec: `Docker::process_into_value` from the crate's
`docker` module (not part of this slice).  Maps the transport's raw
response into a typed result: a connection failure or a non-success status
surfaces as a transport-kind error, and a successful response whose body
the operation's decoder rejects surfaces as a deserialization-kind
error. -/
def process_into_value (dec : String → Except String α) :
    TransportResponse → Except Error α
  | TransportResponse.failure m => Except.error (Error.transportError m)
  | TransportResponse.response st body =>
    if statusSuccess st then
      match dec body with
      | Except.ok v => Except.ok v
      | Except.error m => Except.error (Error.jsonDeserializeError m)
    else Except.error (Error.dockerResponseServerError st body)

/-- Modelled from the spec: `Docker::process_into_unit` from the crate's
`docker` module (not part of this slice).  For operations with no payload
(remove, connect, disconnect) a successful response yields the unit value
without decoding the body; failures surface exactly as transport-kind
errors. -/
def process_into_unit : TransportResponse → Except Error Unit
  | TransportResponse.failure m => Except.error (Error.transportError m)
  | TransportResponse.response st body =>
    if statusSuccess st then Except.ok ()
    else Except.error (Error.dockerResponseServerError st body)

/-- C7: the decoder pipeline never conflates error kinds — a non-success
status or connection failure surfaces a transport-kind error, an
undecodable body of a successful response surfaces a deserialization-kind
error, no error value is of both kinds, and the unit pipeline used by
remove/connect/disconnect never produces a deserialization-kind error. -/
theorem result_decoder_error_kinds (dec : String → Except String α)
    (st : Nat) (body msg : String) :
    (statusSuccess st = false →
      process_into_value dec (TransportResponse.response st body) =
        Except.error (Error.dockerResponseServerError st body) ∧
      (Error.dockerResponseServerError st body).isTransportKind = true ∧
      (Error.dockerResponseServerError st body).isDeserializeKind = false) ∧
    (statusSuccess st = true → dec body = Except.error msg →
      process_into_value dec (TransportResponse.response st body) =
        Except.error (Error.jsonDeserializeError msg) ∧
      (Error.jsonDeserializeError msg).isTransportKind = false ∧
      (Error.jsonDeserializeError msg).isDeserializeKind = true) ∧
    (process_into_value dec (TransportResponse.failure msg) =
        Except.error (Error.transportError msg) ∧
      (Error.transportError msg).isTransportKind = true ∧
      (Error.transportError msg).isDeserializeKind = false) ∧
    (∀ e : Error, ¬(e.isTransportKind = true ∧ e.isDeserializeKind = true)) ∧
    (∀ e : Error, process_into_unit (TransportResponse.response st body) =
        Except.error e → e.isDeserializeKind = false ∧ e.isTransportKind = true) ∧
    (∀ e : Error, process_into_unit (TransportResponse.failure msg) =
        Except.error e → e.isDeserializeKind = false ∧ e.isTransportKind = true) := by
  refine ⟨fun h => ?_, fun h hd => ?_, ⟨rfl, rfl, rfl⟩, fun e => ?_, fun e he => ?_, fun e he => ?_⟩
  · simp [process_into_value, h, Error.isTransportKind, Error.isDeserializeKind]
  · simp [process_into_value, h, hd, Error.isTransportKind, Error.isDeserializeKind]
  · cases e <;> simp [Error.isTransportKind, Error.isDeserializeKind]
  · revert he
    unfold process_into_unit
    cases hs : statusSuccess st <;> intro he <;> simp [hs] at he
    subst he
    simp [Error.isTransportKind, Error.isDeserializeKind]
  · revert he
    unfold process_into_unit
    intro he
    simp at he
    subst he
    simp [Error.isTransportKind, Error.isDeserializeKind]

/-- C7 witness: at status 200 with a decoder rejecting the body the
pipeline yields a deserialization-kind error, and at status 500 it yields
a transport-kind error. -/
theorem result_decoder_error_kinds_witness :
    statusSuccess 200 = true ∧ statusSuccess 500 = false ∧
    process_into_value (fun _ => (Except.error "malformed" : Except String Nat))
        (TransportResponse.response 200 "notjson") =
      Except.error (Error.jsonDeserializeError "malformed") ∧
    process_into_value (fun _ => (Except.error "malformed" : Except String Nat))
        (TransportResponse.response 500 "denied") =
      Except.error (Error.dockerResponseServerError 500 "denied") :=
  ⟨by decide, by decide,
   ((result_decoder_error_kinds (fun _ => (Except.error "malformed" : Except String Nat))
      200 "notjson" "malformed").2.1 (by decide) rfl).1,
   ((result_decoder_error_kinds (fun _ => (Except.error "malformed" : Except String Nat))
      500 "denied" "malformed").1 (by decide)).1⟩
